import Mathlib

/-!
Verification development for the ResQ personal-safety application.

Each screen of the application is embedded as pure Lean definitions:
state is passed explicitly, asynchronous platform calls (storage,
geolocation, the SMS/phone dialers, the file system) are modelled by
explicit outcome parameters, and every user-visible effect (navigation,
alerts, storage writes, console warnings) is part of the returned value.
-/

namespace ResQ

/-! ## Calculator screen (app/calculator.tsx)

`handlePress` of the disguised calculator: digit/operator accumulation
plus the hidden PIN-unlock decision.  The `"="` button routes to
`evaluateExpression` (arithmetic display only, it never navigates and is
not involved in any claim); the model covers every other button. -/

/-- The `operators` array of `handlePress`:
`["÷", "×", "−", "/", "*", "-", "+"]`. -/
def operators : List Char := ['÷', '×', '−', '/', '*', '-', '+']

/-- Test `operators.includes(c)`. -/
def isOp (c : Char) : Bool := operators.contains c

/-- The check of `expression.slice(-1)` against `operators`: the last character,
an empty slice matching no operator. -/
def lastIsOp (e : List Char) : Bool := ((e.getLast?).map isOp).getD false

/-- Navigation decision taken by a single `handlePress` call. -/
inductive Nav where
  | none
  | home
  | registerReset
  deriving DecidableEq, Repr

/-- Calculator state: the expression characters and the AsyncStorage
`userPin` entry (`none` when the key is absent). -/
structure CalcState where
  expression : List Char
  storedPin : Option (List Char)
  deriving DecidableEq, Repr

/-- The calculator buttons fed to `handlePress`, except `"="` (which
returns early into `evaluateExpression`): the clear key `"C"` and the
single-character digit/operator keys of the `buttons` grid. -/
inductive CalcButton where
  | clear
  | key (c : Char)
  deriving DecidableEq, Repr

/-- The digit/operator characters appearing on the `buttons` grid
(everything except `"C"` and `"="`). -/
def buttonChars : List Char :=
  ['7', '8', '9', '÷', '4', '5', '6', '×', '1', '2', '3', '−', '0', '+']

/-- The reserved reset PIN `'000000'`. -/
def resetPin : List Char := ['0', '0', '0', '0', '0', '0']

/-- The expression update of `handlePress` for a non-`C`, non-`=` button:
`newExp = expression + val`, except that an operator pressed after an
operator replaces the last character. -/
def nextExpression (e : List Char) (c : Char) : List Char :=
  if isOp c && lastIsOp e then e.dropLast ++ [c] else e ++ [c]

/-- Digit extraction `newExp.replace(/\D/g, "")`: the digit characters of the expression. -/
def onlyDigits (e : List Char) : List Char := e.filter Char.isDigit

/-- The tail of `handlePress` for a digit/operator key: set the new
expression, then, when the accumulated digits reach length 6, either
reset (digits `000000`: remove `userPin`, go to `/register`) or compare
with the stored PIN and go to `/home` on a match. -/
def pressKey (s : CalcState) (c : Char) : CalcState × Nav :=
  let newExp := nextExpression s.expression c
  let digits := onlyDigits newExp
  if digits.length = 6 then
    if digits = resetPin then
      ({ expression := newExp, storedPin := Option.none }, Nav.registerReset)
    else
      match s.storedPin with
      | Option.some stored =>
          if digits = stored then ({ s with expression := newExp }, Nav.home)
          else ({ s with expression := newExp }, Nav.none)
      | Option.none => ({ s with expression := newExp }, Nav.none)
  else
    ({ s with expression := newExp }, Nav.none)

/-- Dispatch of `handlePress` for the buttons other than `"="`. -/
def handlePress (s : CalcState) : CalcButton → CalcState × Nav
  | CalcButton.clear => ({ s with expression := s.expression.dropLast }, Nav.none)
  | CalcButton.key c => pressKey s c

/-- A sequence of presses; the returned `Nav` is the decision of the last
press (`Nav.none` for the empty sequence). -/
def runPresses (s : CalcState) (bs : List CalcButton) : CalcState × Nav :=
  bs.foldl (fun acc b => handlePress acc.1 b) (s, Nav.none)

/-- No two adjacent characters of the expression are both operators. -/
def noAdjOps : List Char → Bool
  | a :: b :: rest => (!(isOp a && isOp b)) && noAdjOps (b :: rest)
  | _ => true

/-! ## Registration screen (app/register.tsx, `RegisterScreen`)

`onPinChange` feeds the hidden PIN input; `handleRegister` validates and
persists.  The `AsyncStorage.multiSet` call may throw, modelled by the
`storageOk` flag. -/

/-- JS `s.trim()`: strip leading and trailing whitespace (modelled at the
character-list level). -/
def trimChars (s : String) : String :=
  (((s.toList.dropWhile Char.isWhitespace).reverse.dropWhile
      Char.isWhitespace).reverse).asString

/-- Handler `onPinChange`: `text.replace(/\D/g, "").slice(0, 6)` becomes the
`rawPin` state. -/
def onPinChange (text : String) : String :=
  ((text.toList.filter Char.isDigit).take 6).asString

/-- Check `isNaN(Number(s))` of `handleRegister`.  The only strings reaching it
are `onPinChange` outputs, which are digit-only; `Number` of a digit-only
string (including `""`, which gives `0`) is never `NaN`.  Strings with
non-digit characters cannot occur here and are modelled as `NaN`. -/
def numberIsNaN (s : String) : Bool := !(s.toList.all Char.isDigit)

/-- Observable outcome of one `handleRegister` call: the alert title
shown, the key/value pairs handed to `AsyncStorage.multiSet`, and whether
the screen navigated on to `/calculator`. -/
structure RegisterOutcome where
  alert : Option String
  writes : List (String × String)
  navigatedToCalculator : Bool
  deriving DecidableEq, Repr

/-- Handler `handleRegister`: reject an empty trimmed username, a `rawPin` that is
not a 6-digit number, and the reserved `000000`; otherwise persist exactly
`userPin` and `isRegistered` (never the username).  `storageOk` is whether
the `multiSet` call succeeds; its failure is caught and alerted. -/
def handleRegister (storageOk : Bool) (username rawPin : String) : RegisterOutcome :=
  if trimChars username = "" then
    { alert := some "Username required", writes := [], navigatedToCalculator := false }
  else if rawPin.length ≠ 6 || numberIsNaN rawPin then
    { alert := some "Invalid PIN", writes := [], navigatedToCalculator := false }
  else if rawPin = "000000" then
    { alert := some "Invalid PIN", writes := [], navigatedToCalculator := false }
  else if storageOk then
    { alert := some "✅ Success"
      writes := [("userPin", rawPin), ("isRegistered", "true")]
      navigatedToCalculator := true }
  else
    { alert := some "❌ Error", writes := [], navigatedToCalculator := false }

/-! ## Private media vault (app/register.tsx source bundle, `PrivateMediaSaver`)

`copyToAppStorageAndRemoveOriginal` tries three copy strategies in order.
Each strategy either succeeds or throws; `tryDeleteOriginal` never throws
and reports a `Bool`.  The environment records those platform outcomes;
`err*` fields carry `String(e)` of the exception a failing strategy
throws. -/

/-- One entry pushed onto `debugCollector` (`step` plus the optional
stringified error). -/
structure DebugEntry where
  step : String
  error : Option String
  deriving DecidableEq, Repr

/-- Platform outcomes of the three copy strategies and of the best-effort
original delete. -/
structure CopyEnv where
  copyOk : Bool
  errCopy : String
  downloadOk : Bool
  errDownload : String
  base64Ok : Bool
  errBase64 : String
  deleteOk : Bool
  deriving DecidableEq, Repr

/-- Value returned by `copyToAppStorageAndRemoveOriginal` on success
(`{ dest, deleted, debugCollector }`), or the aggregate error thrown when
every strategy fails (its message and the attached `debugCollector`). -/
inductive CopyResult where
  | ok (dest : String) (deleted : Bool) (debugCollector : List DebugEntry)
  | err (message : String) (debugCollector : List DebugEntry)
  deriving DecidableEq, Repr

/-- The aggregate error message of `copyToAppStorageAndRemoveOriginal`. -/
def copyAggregateMessage : String :=
  "Unable to copy file into app storage (provider restriction). See debugCollector for steps."

/-- Routine `copyToAppStorageAndRemoveOriginal(uri, name, debugCollector)`:
strategy 1 `FileSystem.copyAsync`, on a throw strategy 2
`FileSystem.downloadAsync`, on a throw strategy 3 a Base64
read/write; the first success deletes the original best-effort and
returns `dest`; when all three throw, an aggregate error carrying the
collected debug records is thrown.  `dest` abstracts the
`documentDirectory + randomId` destination path. -/
def copyToAppStorageAndRemoveOriginal (env : CopyEnv) (dest : String)
    (debugCollector : List DebugEntry) : CopyResult :=
  if env.copyOk then
    CopyResult.ok dest env.deleteOk
      (debugCollector ++ [{ step := "copyAsync success", error := none }])
  else
    let d1 := debugCollector ++ [{ step := "copyAsync failed", error := some env.errCopy }]
    if env.downloadOk then
      CopyResult.ok dest env.deleteOk
        (d1 ++ [{ step := "downloadAsync result", error := none }])
    else
      let d2 := d1 ++ [{ step := "downloadAsync failed", error := some env.errDownload }]
      if env.base64Ok then
        CopyResult.ok dest env.deleteOk
          (d2 ++ [{ step := "base64 read/write success", error := none }])
      else
        CopyResult.err copyAggregateMessage
          (d2 ++ [{ step := "base64 fallback failed", error := some env.errBase64 }])

/-! ## Records appended to persisted lists (claim C4)

The field names of the object literals appended by each save operation,
transcribed from the source. -/

/-- Fields of `newC` in `onSubmitForm` (app/sosdial.tsx):
`{ id: uid("c-"), name, number }`. -/
def sosContactFields : List String := ["id", "name", "number"]

/-- Fields of `record` in `saveLocation` (app/locationshare.tsx):
`{ id: uid("loc-"), latitude, longitude, address, savedAt }`. -/
def savedLocationFields : List String :=
  ["id", "latitude", "longitude", "address", "savedAt"]

/-- Fields of `meta` in `handlePickedFile` (`PrivateMediaSaver`):
`{ id: randomId('m-'), originalName, storedPath, size, savedAt,
deletedOriginal }`. -/
def mediaMetaFields : List String :=
  ["id", "originalName", "storedPath", "size", "savedAt", "deletedOriginal"]

/-- Fields of the object pushed by `saveRecordingUri`
(app/hiddenfeature.tsx): `{ uri, createdAt: new Date().toISOString() }`. -/
def stealthRecordingFields : List String := ["uri", "createdAt"]

/-- Every persisted list the application appends records to, with its
AsyncStorage key and the fields of the appended record. -/
def persistedListRecords : List (String × List String) :=
  [("@sos_custom_contacts_v1", sosContactFields),
   ("@saved_locations_v2", savedLocationFields),
   ("@saved_media_meta_v_final", mediaMetaFields),
   ("stealthRecordings", stealthRecordingFields)]

/-! ## SOS dial screen (app/sosdial.tsx) -/

/-- The `Contact` record.  A contact created by `onSubmitForm` carries no
`builtIn: true` marker, modelled as `builtIn := false`. -/
structure Contact where
  id : String
  name : String
  number : String
  builtIn : Bool := false
  deriving DecidableEq, Repr

/-- The `BUILT_IN` array, in its fixed order. -/
def BUILT_IN : List Contact :=
  [{ id := "builtin-112", name := "Emergency (All)", number := "112", builtIn := true },
   { id := "builtin-100", name := "Police", number := "100", builtIn := true },
   { id := "builtin-101", name := "Fire", number := "101", builtIn := true },
   { id := "builtin-102", name := "Ambulance (Alt)", number := "102", builtIn := true },
   { id := "builtin-1091", name := "Women Helpline", number := "1091", builtIn := true }]

/-- Helper `sanitizeNumber`: trim. -/
def sanitizeNumber (n : String) : String := trimChars n

/-- Helper `isValidPhone`: at least 5 digit characters. -/
def isValidPhone (n : String) : Bool :=
  5 ≤ (n.toList.filter Char.isDigit).length

/-- The `setAll([...BUILT_IN, ...custom])` effect: the displayed list. -/
def allContacts (custom : List Contact) : List Contact := BUILT_IN ++ custom

/-- Handler `onSubmitForm` restricted to its effect on the custom list: invalid
input (empty trimmed name, or fewer than 5 digits) alerts and changes
nothing; in edit mode the custom contact with the matching id gets the new
name and number; otherwise a fresh contact (id from `uid("c-")`, passed in
as `newId`) is prepended. -/
def onSubmitForm (editId : Option String) (newId formName formNumber : String)
    (custom : List Contact) : List Contact :=
  let name := trimChars formName
  let number := sanitizeNumber formNumber
  if name = "" then custom
  else if !isValidPhone number then custom
  else
    match editId with
    | some eid =>
        custom.map (fun c => if c.id = eid then { c with name := name, number := number } else c)
    | none => { id := newId, name := name, number := number } :: custom

/-- The delete action of `onLongPressCard`:
`custom.filter((c) => c.id !== contact.id)`. -/
def deleteContact (cid : String) (custom : List Contact) : List Contact :=
  custom.filter (fun c => c.id ≠ cid)

/-- Observable outcome of `persist(next)` in app/sosdial.tsx: the in-memory
`custom` state (set before the write), whether the AsyncStorage value was
written, and the catch handler's effects. -/
structure PersistOutcome where
  customState : List Contact
  stored : Option (List Contact)
  warned : Bool
  alerted : Bool
  deriving DecidableEq, Repr

/-- Helper `persist`: `setCustom(next)` then `AsyncStorage.setItem`; a throw is
caught with `console.warn("Failed to save custom contacts", e)` and no
alert. -/
def persist (storageOk : Bool) (next : List Contact) : PersistOutcome :=
  if storageOk then
    { customState := next, stored := some next, warned := false, alerted := false }
  else
    { customState := next, stored := none, warned := true, alerted := false }

/-- Outcome of the location phase inside `sendSmsWithLocation`:
permission granted with coordinates, permission denied, or the inner
`try` threw. -/
inductive LocationOutcome where
  | granted (latStr lonStr : String)
  | denied
  | failed (err : String)
  deriving DecidableEq, Repr

/-- The `coordsText` produced from the location phase, with the console
warnings emitted along the way.  Coordinates are carried as their decimal
string forms. -/
def coordsTextOf : LocationOutcome → String × List String
  | LocationOutcome.granted latStr lonStr =>
      ("\nLocation: https://www.google.com/maps/search/?api=1&query=" ++ latStr ++ "," ++ lonStr,
       [])
  | LocationOutcome.denied => ("\n(Location permission not granted)", [])
  | LocationOutcome.failed _ => ("\n(Location unavailable)", ["Location read failed"])

/-- Final action of `sendSmsWithLocation`. -/
inductive SmsAction where
  | openComposer (number : String) (body : String)
  | alertSmsNotAvailable
  | alertError (err : String)
  deriving DecidableEq, Repr

/-- Handler `sendSmsWithLocation(contact)`: build `coordsText` from the location
phase (a failure there is caught, warned about, and replaced by a
placeholder), compose `message`, then open the `sms:` URL when
`canOpenURL` allows it (the URL-encoding of the body is elided; the
action carries the plain message).  A throw from `openURL` reaches the
outer catch, which warns and alerts. -/
def sendSmsWithLocation (loc : LocationOutcome) (canOpen : Bool)
    (openErr : Option String) (contact : Contact) : SmsAction × List String :=
  let ct := coordsTextOf loc
  let message :=
    "I need help — calling " ++ contact.name ++ " (" ++ contact.number ++ ")." ++
      ct.1 ++ "\nPlease respond."
  if canOpen then
    match openErr with
    | none => (SmsAction.openComposer contact.number message, ct.2)
    | some e => (SmsAction.alertError e, ct.2 ++ ["sms fallback error"])
  else
    (SmsAction.alertSmsNotAvailable, ct.2)

/-! ## Hidden notes screen (`HiddenNotes`)

The Firestore subscription is built from
`query(collection(db, 'hidden_notes'), orderBy('createdAt', 'desc'))`,
so the `notes` state arrives newest-first; `displayNotes` filters by the
search text and then sorts with a comparator moving pinned notes first.
`Array.prototype.sort` is stable (ES2019), modelled by a stable insertion
sort: an element is placed after every element the comparator does not
order strictly after it. -/

/-- A document of the `hidden_notes` collection as used by the screen. -/
structure Note where
  id : String
  content : String
  createdAt : Int
  pinned : Bool
  deriving DecidableEq, Repr

/-- The comparator of the `displayNotes` sort:
`(a, b) => bPinned - aPinned` with `xPinned = x.pinned ? 1 : 0`. -/
def pinCmp (a b : Note) : Int :=
  (if b.pinned then 1 else 0) - (if a.pinned then 1 else 0)

/-- Stable insertion for a JS comparator: `x` goes after every `y` with
`cmp y x ≤ 0` (i.e. `y` not strictly after `x`), preserving the original
order of ties. -/
def jsInsert (cmp : Note → Note → Int) (x : Note) : List Note → List Note
  | [] => [x]
  | y :: ys => if cmp y x ≤ 0 then y :: jsInsert cmp x ys else x :: y :: ys

/-- Model of `array.sort(cmp)` for a consistent comparator: the stable sorted
permutation (unique, so any conforming engine returns it). -/
def jsStableSort (cmp : Note → Note → Int) (l : List Note) : List Note :=
  l.foldl (fun acc x => jsInsert cmp x acc) []

/-- Does `needle` occur at the very start of `hay`? -/
def initialSegment : List Char → List Char → Bool
  | [], _ => true
  | _ :: _, [] => false
  | a :: as, b :: bs => a == b && initialSegment as bs

/-- JS `hay.includes(needle)`: `needle` occurs contiguously in `hay`. -/
def substrOf (needle : List Char) : List Char → Bool
  | [] => needle.isEmpty
  | b :: bs => initialSegment needle (b :: bs) || substrOf needle bs

/-- Lowercasing `s.toLowerCase()` at the character-list level (ASCII case folding). -/
def lowerChars (s : String) : List Char := s.toList.map Char.toLower

/-- The filter `notes.filter(item => item?.content?.toLowerCase().includes(search.toLowerCase()))`. -/
def searchFilter (search : String) (notes : List Note) : List Note :=
  notes.filter (fun n => substrOf (lowerChars search) (lowerChars n.content))

/-- Derivation `displayNotes`: search filter, then the stable pinned-first sort. -/
def displayNotes (search : String) (notes : List Note) : List Note :=
  jsStableSort pinCmp (searchFilter search notes)

/-- Newest-first: `createdAt` non-increasing along the list, as delivered
by the `orderBy('createdAt', 'desc')` subscription. -/
def NewestFirst (l : List Note) : Prop :=
  l.Pairwise (fun a b => b.createdAt ≤ a.createdAt)

/-! ## Helpline screen (app/helpline.tsx)

`initiateCall` races `Linking.openURL` against a 1.5 s timer
(`Promise.race([openPromise, timeout])`) and shows the fallback modal
unless `openURL` resolved successfully within the window. -/

/-- The shape of the awaited operation in a call-initiation path: a single
awaited action, or a race between an `openURL` and a timer. -/
inductive AwaitShape where
  | single (url : String)
  | race (url : String) (timeoutMs : Nat)
  deriving DecidableEq, Repr

/-- The operation `initiateCall` awaits on a non-web platform:
`Promise.race([Linking.openURL("tel:" + number), setTimeout(1500)])`. -/
def initiateCallAwaited (number : String) : AwaitShape :=
  AwaitShape.race ("tel:" ++ number) 1500

/-- Modelled from the spec: the awaited operation the claim describes for
the helpline call-initiation path — `await Linking.openURL` alone, with
no timer raced against it. -/
def specAwaitedCall (number : String) : AwaitShape :=
  AwaitShape.single ("tel:" ++ number)

/-- Platform outcome of `Linking.openURL` for one call: whether it
eventually resolves successfully, and whether it settles within the
1500 ms window. -/
structure CallEnv where
  platformWeb : Bool
  openResolves : Bool
  withinTimeout : Bool
  deriving DecidableEq, Repr

/-- Decision of `initiateCall`: is the fallback modal shown?
On web: always.  Otherwise the `opened` flag is set only by the `.then`
of a successful `openURL`, so after the race it is `true` exactly when
`openURL` resolved successfully within the window. -/
def initiateCallShowsModal (env : CallEnv) : Bool :=
  if env.platformWeb then true
  else !(env.openResolves && env.withinTimeout)

/-- Modelled from the spec: the same decision under the claim's
sequential-await reading — the modal appears exactly when the awaited
`openURL` fails. -/
def specCallShowsModal (env : CallEnv) : Bool :=
  if env.platformWeb then true
  else !env.openResolves

/-! ## Calculator lemmas -/

theorem not_isOp_of_isDigit {c : Char} (h : c.isDigit = true) : isOp c = false := by
  by_contra hc
  have ht : isOp c = true := by
    cases hb : isOp c
    · exact absurd hb hc
    · rfl
  have hmem : c ∈ operators :=
    List.mem_of_elem_eq_true (show List.elem c operators = true from ht)
  fin_cases hmem <;> exact absurd h (by decide)

theorem lastIsOp_concat (l : List Char) (c : Char) : lastIsOp (l ++ [c]) = isOp c := by
  simp [lastIsOp]

theorem noAdjOps_append (l : List Char) (c : Char) :
    noAdjOps (l ++ [c]) = (noAdjOps l && !(lastIsOp l && isOp c)) := by
  induction l with
  | nil => simp [noAdjOps, lastIsOp]
  | cons a l ih =>
    cases l with
    | nil => simp [noAdjOps, lastIsOp, Bool.and_comm]
    | cons b l' =>
      have h2 : lastIsOp (a :: b :: l') = lastIsOp (b :: l') := by
        simp [lastIsOp, List.getLast?_cons_cons]
      have ih' : noAdjOps (b :: (l' ++ [c]))
          = (noAdjOps (b :: l') && !(lastIsOp (b :: l') && isOp c)) := ih
      show (!(isOp a && isOp b) && noAdjOps (b :: (l' ++ [c])))
          = ((!(isOp a && isOp b) && noAdjOps (b :: l')) && !(lastIsOp (a :: b :: l') && isOp c))
      rw [ih', h2, Bool.and_assoc]

theorem noAdjOps_dropLast {l : List Char} (h : noAdjOps l = true) :
    noAdjOps l.dropLast = true := by
  cases l with
  | nil => simpa using h
  | cons a l' =>
    have hne : (a :: l') ≠ [] := by simp
    have hsplit := List.dropLast_append_getLast hne
    rw [← hsplit, noAdjOps_append] at h
    simp only [Bool.and_eq_true] at h
    exact h.1

theorem lastIsOp_dropLast {l : List Char} (h : noAdjOps l = true)
    (hop : lastIsOp l = true) : lastIsOp l.dropLast = false := by
  cases l with
  | nil => simp [lastIsOp]
  | cons a l' =>
    have hne : (a :: l') ≠ [] := by simp
    have hsplit := List.dropLast_append_getLast hne
    rw [← hsplit, noAdjOps_append] at h
    rw [← hsplit, lastIsOp_concat] at hop
    simp only [Bool.and_eq_true] at h
    have h2 := h.2
    cases hd : lastIsOp (a :: l').dropLast
    · rfl
    · rw [hd, hop] at h2
      simp at h2

theorem noAdjOps_nextExpression (e : List Char) (c : Char)
    (h : noAdjOps e = true) : noAdjOps (nextExpression e c) = true := by
  unfold nextExpression
  split
  · next hcond =>
    simp only [Bool.and_eq_true] at hcond
    rw [noAdjOps_append, noAdjOps_dropLast h, lastIsOp_dropLast h hcond.2]
    simp
  · next hcond =>
    rw [noAdjOps_append, h]
    cases hc : isOp c
    · simp
    · cases hl : lastIsOp e
      · simp
      · exact absurd (by rw [hc, hl]; rfl) hcond

theorem pressKey_fst_expression (s : CalcState) (c : Char) :
    (pressKey s c).1.expression = nextExpression s.expression c := by
  unfold pressKey
  dsimp only
  split
  · split
    · rfl
    · cases s.storedPin
      · rfl
      · dsimp only
        split <;> rfl
  · rfl

theorem handlePress_preserves_noAdjOps (s : CalcState) (b : CalcButton)
    (h : noAdjOps s.expression = true) :
    noAdjOps (handlePress s b).1.expression = true := by
  cases b with
  | clear => exact noAdjOps_dropLast h
  | key c =>
    show noAdjOps (pressKey s c).1.expression = true
    rw [pressKey_fst_expression]
    exact noAdjOps_nextExpression s.expression c h

theorem foldl_handlePress_noAdjOps :
    ∀ (bs : List CalcButton) (acc : CalcState × Nav),
      noAdjOps acc.1.expression = true →
      noAdjOps (bs.foldl (fun a b => handlePress a.1 b) acc).1.expression = true := by
  intro bs
  induction bs with
  | nil => intro acc h; simpa using h
  | cons b bs ih =>
    intro acc h
    exact ih _ (handlePress_preserves_noAdjOps acc.1 b h)

theorem nextExpression_digit (e : List Char) {c : Char} (hc : c.isDigit = true) :
    nextExpression e c = e ++ [c] := by
  unfold nextExpression
  rw [not_isOp_of_isDigit hc]
  simp

theorem onlyDigits_all {l : List Char} (h : ∀ x ∈ l, x.isDigit = true) :
    onlyDigits l = l := by
  unfold onlyDigits
  exact List.filter_eq_self.mpr (by simpa using h)

theorem pressKey_digit_short {e : List Char} {pin : Option (List Char)} {c : Char}
    (hc : c.isDigit = true) (he : ∀ x ∈ e, x.isDigit = true)
    (hlen : e.length + 1 ≠ 6) :
    pressKey { expression := e, storedPin := pin } c
      = ({ expression := e ++ [c], storedPin := pin }, Nav.none) := by
  have hall : ∀ x ∈ e ++ [c], x.isDigit = true := by
    intro x hx
    rcases List.mem_append.mp hx with hx | hx
    · exact he x hx
    · simp at hx; subst hx; exact hc
  have hlen' : ¬(e ++ [c]).length = 6 := by simpa using hlen
  have hlen5 : ¬e.length = 5 := by
    intro h5
    exact hlen (by omega)
  simp [pressKey, nextExpression_digit e hc, onlyDigits_all hall, hlen', hlen5]

theorem pressKey_digit_final {e p : List Char} {c : Char}
    (hc : c.isDigit = true) (he : ∀ x ∈ e, x.isDigit = true)
    (hlen : (e ++ [c]).length = 6) (hres : e ++ [c] ≠ resetPin)
    (heq : e ++ [c] = p) :
    pressKey { expression := e, storedPin := some p } c
      = ({ expression := e ++ [c], storedPin := some p }, Nav.home) := by
  have hall : ∀ x ∈ e ++ [c], x.isDigit = true := by
    intro x hx
    rcases List.mem_append.mp hx with hx | hx
    · exact he x hx
    · simp at hx; subst hx; exact hc
  subst heq
  simp [pressKey, nextExpression_digit e hc, onlyDigits_all hall, hlen, hres]

/-- Claim C1: entering the digits of the stored 6-digit PIN on the
calculator, starting from an empty expression, makes `handlePress`
navigate (`router.replace`) to `/home` on the sixth digit; and a press
whose accumulated 6 digit characters match neither the stored PIN nor
`000000` navigates nowhere and keeps the updated expression and the
stored PIN. -/
theorem pin_unlock_navigates_home (p : List Char) (hlen : p.length = 6)
    (hdig : ∀ c ∈ p, c.isDigit = true) (hne : p ≠ resetPin) :
    (runPresses { expression := [], storedPin := some p } (p.map CalcButton.key)).2
        = Nav.home ∧
    (∀ (s : CalcState) (c : Char),
      s.storedPin = some p →
      (onlyDigits (nextExpression s.expression c)).length = 6 →
      onlyDigits (nextExpression s.expression c) ≠ p →
      onlyDigits (nextExpression s.expression c) ≠ resetPin →
      pressKey s c
        = ({ expression := nextExpression s.expression c, storedPin := some p },
           Nav.none)) := by
  constructor
  · obtain ⟨a, b, c, d, e, f, rfl⟩ : ∃ a b c d e f, p = [a, b, c, d, e, f] := by
      rcases p with _ | ⟨a, _ | ⟨b, _ | ⟨c, _ | ⟨d, _ | ⟨e, _ | ⟨f, _ | ⟨g, t⟩⟩⟩⟩⟩⟩⟩ <;>
        first
          | exact ⟨_, _, _, _, _, _, rfl⟩
          | (exfalso
             simp only [List.length_cons, List.length_nil] at hlen
             omega)
    have ha : a.isDigit = true := hdig a (by simp)
    have hb : b.isDigit = true := hdig b (by simp)
    have hc : c.isDigit = true := hdig c (by simp)
    have hd : d.isDigit = true := hdig d (by simp)
    have he : e.isDigit = true := hdig e (by simp)
    have hf : f.isDigit = true := hdig f (by simp)
    have k1 : pressKey { expression := ([] : List Char), storedPin := some [a, b, c, d, e, f] } a
        = ({ expression := [a], storedPin := some [a, b, c, d, e, f] }, Nav.none) :=
      pressKey_digit_short ha (by simp) (by simp)
    have k2 : pressKey { expression := [a], storedPin := some [a, b, c, d, e, f] } b
        = ({ expression := [a, b], storedPin := some [a, b, c, d, e, f] }, Nav.none) :=
      pressKey_digit_short hb (by simpa using ha) (by simp)
    have k3 : pressKey { expression := [a, b], storedPin := some [a, b, c, d, e, f] } c
        = ({ expression := [a, b, c], storedPin := some [a, b, c, d, e, f] }, Nav.none) :=
      pressKey_digit_short hc (by simpa using ⟨ha, hb⟩) (by simp)
    have k4 : pressKey { expression := [a, b, c], storedPin := some [a, b, c, d, e, f] } d
        = ({ expression := [a, b, c, d], storedPin := some [a, b, c, d, e, f] }, Nav.none) :=
      pressKey_digit_short hd (by simpa using ⟨ha, hb, hc⟩) (by simp)
    have k5 : pressKey { expression := [a, b, c, d], storedPin := some [a, b, c, d, e, f] } e
        = ({ expression := [a, b, c, d, e], storedPin := some [a, b, c, d, e, f] }, Nav.none) :=
      pressKey_digit_short he (by simpa using ⟨ha, hb, hc, hd⟩) (by simp)
    have k6 : pressKey { expression := [a, b, c, d, e], storedPin := some [a, b, c, d, e, f] } f
        = ({ expression := [a, b, c, d, e, f], storedPin := some [a, b, c, d, e, f] }, Nav.home) :=
      pressKey_digit_final hf (by simpa using ⟨ha, hb, hc, hd, he⟩) (by simp)
        (by simpa using hne) (by simp)
    show (([a, b, c, d, e, f].map CalcButton.key).foldl
        (fun acc x => handlePress acc.1 x)
        ({ expression := [], storedPin := some [a, b, c, d, e, f] }, Nav.none)).2 = Nav.home
    simp only [List.map_cons, List.map_nil, List.foldl_cons, List.foldl_nil, handlePress,
      k1, k2, k3, k4, k5, k6]
  · intro s c hsp hlen6 hnp hnr
    cases s with
    | mk expr pin =>
      simp only at hsp
      subst hsp
      simp only [pressKey, hlen6, if_pos, hnr, if_neg, hnp, ite_false, ite_true]

/-- Claim C2: when a digit/operator press makes the accumulated digit
characters exactly `000000`, `handlePress` removes the stored `userPin`
and navigates (`router.replace`) to `/register`, whatever PIN (if any)
is stored. -/
theorem reset_code_clears_pin_and_reregisters (s : CalcState) (c : Char)
    (h : onlyDigits (nextExpression s.expression c) = resetPin) :
    pressKey s c
      = ({ expression := nextExpression s.expression c, storedPin := none },
         Nav.registerReset) := by
  simp only [pressKey, h]
  simp [resetPin]

/-- Witness for claim C1 at the PIN `123456`, with the no-match press
`'8'` on the accumulated expression `99999`. -/
theorem pin_unlock_navigates_home_witness :
    (['1', '2', '3', '4', '5', '6'] : List Char).length = 6 ∧
    (∀ c ∈ (['1', '2', '3', '4', '5', '6'] : List Char), c.isDigit = true) ∧
    (['1', '2', '3', '4', '5', '6'] : List Char) ≠ resetPin ∧
    (runPresses { expression := [], storedPin := some ['1', '2', '3', '4', '5', '6'] }
        ((['1', '2', '3', '4', '5', '6'] : List Char).map CalcButton.key)).2 = Nav.home ∧
    pressKey { expression := ['9', '9', '9', '9', '9'],
               storedPin := some ['1', '2', '3', '4', '5', '6'] } '8'
      = ({ expression := nextExpression ['9', '9', '9', '9', '9'] '8',
           storedPin := some ['1', '2', '3', '4', '5', '6'] }, Nav.none) :=
  ⟨by decide, by decide, by decide,
   (pin_unlock_navigates_home ['1', '2', '3', '4', '5', '6']
      (by decide) (by decide) (by decide)).1,
   (pin_unlock_navigates_home ['1', '2', '3', '4', '5', '6']
      (by decide) (by decide) (by decide)).2
     { expression := ['9', '9', '9', '9', '9'],
       storedPin := some ['1', '2', '3', '4', '5', '6'] } '8'
     rfl (by decide) (by decide) (by decide)⟩

/-- Witness for claim C2: pressing `'0'` on the expression `00000`. -/
theorem reset_code_clears_pin_witness :
    onlyDigits (nextExpression ['0', '0', '0', '0', '0'] '0') = resetPin ∧
    pressKey { expression := ['0', '0', '0', '0', '0'],
               storedPin := some ['1', '2', '3', '4', '5', '6'] } '0'
      = ({ expression := nextExpression ['0', '0', '0', '0', '0'] '0',
           storedPin := none }, Nav.registerReset) :=
  ⟨by decide,
   reset_code_clears_pin_and_reregisters
     { expression := ['0', '0', '0', '0', '0'],
       storedPin := some ['1', '2', '3', '4', '5', '6'] } '0' (by decide)⟩

/-- Claim C9: starting from an empty expression, any sequence of
`handlePress` calls with buttons other than `"="` leaves the expression
free of adjacent operator characters: an operator pressed after an
operator replaces it instead of being appended. -/
theorem expression_never_has_adjacent_operators (pin : Option (List Char))
    (bs : List CalcButton) :
    noAdjOps (runPresses { expression := [], storedPin := pin } bs).1.expression
      = true :=
  foldl_handlePress_noAdjOps bs ({ expression := [], storedPin := pin }, Nav.none) rfl

/-- Claim C3: `copyToAppStorageAndRemoveOriginal` attempts exactly
`copyAsync`, then `downloadAsync` (only after the first throws), then the
base64 read/write (only after the second also throws); the first success
returns the destination with the best-effort delete flag, and a single
aggregate error carrying the per-step debug records arises iff all three
strategies fail. -/
theorem copy_fallback_chain (env : CopyEnv) (dest : String) :
    ((∃ m d, copyToAppStorageAndRemoveOriginal env dest [] = CopyResult.err m d) ↔
      (env.copyOk = false ∧ env.downloadOk = false ∧ env.base64Ok = false)) ∧
    (env.copyOk = true →
      copyToAppStorageAndRemoveOriginal env dest []
        = CopyResult.ok dest env.deleteOk
            [{ step := "copyAsync success", error := none }]) ∧
    (env.copyOk = false → env.downloadOk = true →
      copyToAppStorageAndRemoveOriginal env dest []
        = CopyResult.ok dest env.deleteOk
            [{ step := "copyAsync failed", error := some env.errCopy },
             { step := "downloadAsync result", error := none }]) ∧
    (env.copyOk = false → env.downloadOk = false → env.base64Ok = true →
      copyToAppStorageAndRemoveOriginal env dest []
        = CopyResult.ok dest env.deleteOk
            [{ step := "copyAsync failed", error := some env.errCopy },
             { step := "downloadAsync failed", error := some env.errDownload },
             { step := "base64 read/write success", error := none }]) ∧
    (env.copyOk = false → env.downloadOk = false → env.base64Ok = false →
      copyToAppStorageAndRemoveOriginal env dest []
        = CopyResult.err copyAggregateMessage
            [{ step := "copyAsync failed", error := some env.errCopy },
             { step := "downloadAsync failed", error := some env.errDownload },
             { step := "base64 fallback failed", error := some env.errBase64 }]) := by
  rcases env with ⟨co, ec, dlo, ed, bo, eb, del⟩
  cases co <;> cases dlo <;> cases bo <;>
    simp [copyToAppStorageAndRemoveOriginal]

/-- Witness for claim C3 in the all-strategies-fail environment. -/
theorem copy_fallback_chain_witness :
    copyToAppStorageAndRemoveOriginal
        { copyOk := false, errCopy := "c", downloadOk := false, errDownload := "d",
          base64Ok := false, errBase64 := "b", deleteOk := false } "vault/media-x.jpg" []
      = CopyResult.err copyAggregateMessage
          [{ step := "copyAsync failed", error := some "c" },
           { step := "downloadAsync failed", error := some "d" },
           { step := "base64 fallback failed", error := some "b" }] :=
  (copy_fallback_chain
      { copyOk := false, errCopy := "c", downloadOk := false, errDownload := "d",
        base64Ok := false, errBase64 := "b", deleteOk := false }
      "vault/media-x.jpg").2.2.2.2 rfl rfl rfl

/-- Counterexample to claim C4: the record `saveRecordingUri` pushes onto
the persisted `stealthRecordings` list has no `id` field, so not every
persisted list receives records with an `id`. -/
theorem not_every_persisted_record_has_id :
    ¬(∀ r ∈ persistedListRecords, "id" ∈ r.2) := by decide

/-- Claim C4 (amended): the custom SOS contacts, saved locations and
media metadata records all carry an `id` field, but the stealth-recording
records appended by `saveRecordingUri` carry only `uri` and `createdAt`
and no `id`. -/
theorem persisted_record_id_fields :
    "id" ∈ sosContactFields ∧ "id" ∈ savedLocationFields ∧
    "id" ∈ mediaMetaFields ∧ "id" ∉ stealthRecordingFields ∧
    stealthRecordingFields = ["uri", "createdAt"] := by decide

/-- Counterexample to claim C5: when the location read inside
`sendSmsWithLocation` throws, the handler only logs a warning, shows no
alert, substitutes the `(Location unavailable)` placeholder and continues
to open the SMS composer; and the catch of `persist` logs a warning with
no user-facing alert. -/
theorem sms_location_failure_recovers :
    sendSmsWithLocation (LocationOutcome.failed "boom") true none
        { id := "builtin-112", name := "Emergency (All)", number := "112", builtIn := true }
      = (SmsAction.openComposer "112"
           "I need help — calling Emergency (All) (112).\n(Location unavailable)\nPlease respond.",
         ["Location read failed"]) ∧
    persist false []
      = { customState := [], stored := none, warned := true, alerted := false } :=
  ⟨rfl, rfl⟩

/-- Claim C5 (amended): catch handlers log a warning, but not every one
shows an alert and the location phase of `sendSmsWithLocation` performs a
partial-failure recovery: on a location error it warns, substitutes the
`(Location unavailable)` placeholder into the message and continues to
the composer; the catch of `persist` warns without alerting; no handler
retries. -/
theorem catch_handlers_warn_and_sms_substitutes (err : String) (canOpen : Bool)
    (contact : Contact) (next : List Contact) :
    (sendSmsWithLocation (LocationOutcome.failed err) canOpen none contact).2
      = ["Location read failed"] ∧
    (canOpen = true →
      (sendSmsWithLocation (LocationOutcome.failed err) canOpen none contact).1
        = SmsAction.openComposer contact.number
            ("I need help — calling " ++ contact.name ++ " (" ++ contact.number ++ ")." ++
              "\n(Location unavailable)" ++ "\nPlease respond.")) ∧
    persist false next
      = { customState := next, stored := none, warned := true, alerted := false } := by
  cases canOpen <;>
    simp [sendSmsWithLocation, coordsTextOf, persist]

/-- Witness for the amended claim C5 on the Police contact. -/
theorem catch_handlers_warn_and_sms_substitutes_witness :
    (sendSmsWithLocation (LocationOutcome.failed "gps off") true none
        { id := "builtin-100", name := "Police", number := "100", builtIn := true }).1
      = SmsAction.openComposer "100"
          ("I need help — calling " ++ "Police" ++ " (" ++ "100" ++ ")." ++
            "\n(Location unavailable)" ++ "\nPlease respond.") :=
  (catch_handlers_warn_and_sms_substitutes "gps off" true
      { id := "builtin-100", name := "Police", number := "100", builtIn := true } []).2.1 rfl

/-- Counterexample to claim C7: the helpline `initiateCall` awaits
`Promise.race([openURL, 1500 ms timer])`, not `openURL` alone; when
`openURL` succeeds only after the window, the code shows the fallback
modal although a sequential await would not. -/
theorem initiate_call_races_timer :
    initiateCallAwaited "1091" ≠ specAwaitedCall "1091" ∧
    initiateCallAwaited "1091" = AwaitShape.race "tel:1091" 1500 ∧
    initiateCallShowsModal
        { platformWeb := false, openResolves := true, withinTimeout := false } = true ∧
    specCallShowsModal
        { platformWeb := false, openResolves := true, withinTimeout := false } = false := by
  refine ⟨?_, rfl, rfl, rfl⟩
  decide

/-- Claim C7 (amended): the application's I/O is sequential except the
helpline call-initiation path, which awaits a race of `Linking.openURL`
against a 1500 ms timer and shows the fallback modal unless `openURL`
resolved successfully within the window (on web the modal is immediate). -/
theorem initiate_call_race_semantics (number : String) (env : CallEnv) :
    initiateCallAwaited number = AwaitShape.race ("tel:" ++ number) 1500 ∧
    (env.platformWeb = true → initiateCallShowsModal env = true) ∧
    (env.platformWeb = false →
      (initiateCallShowsModal env = false ↔
        (env.openResolves = true ∧ env.withinTimeout = true))) := by
  refine ⟨rfl, ?_, ?_⟩ <;>
    · intro h
      rcases env with ⟨w, r, t⟩
      simp only at h
      subst h
      cases r <;> cases t <;> simp [initiateCallShowsModal]

theorem jsInsert_partition (x : Note) (P U : List Note)
    (hP : ∀ n ∈ P, n.pinned = true) (hU : ∀ n ∈ U, n.pinned = false) :
    jsInsert pinCmp x (P ++ U)
      = if x.pinned then P ++ x :: U else P ++ (U ++ [x]) := by
  induction P with
  | nil =>
    induction U with
    | nil => simp [jsInsert]
    | cons y ys ihU =>
      have hy : y.pinned = false := hU y (by simp)
      have hys : ∀ n ∈ ys, n.pinned = false := fun n hn => hU n (by simp [hn])
      cases hx : x.pinned
      · have := ihU hys
        rw [hx] at this
        simp only [List.nil_append] at this ⊢
        simp [jsInsert, pinCmp, hy, hx, this]
      · simp [jsInsert, pinCmp, hy, hx]
  | cons q P' ihP =>
    have hq : q.pinned = true := hP q (by simp)
    have hP' : ∀ n ∈ P', n.pinned = true := fun n hn => hP n (by simp [hn])
    have := ihP hP'
    cases hx : x.pinned <;>
      · rw [hx] at this
        simp [jsInsert, pinCmp, hq, hx, this]

theorem foldl_jsInsert (l : List Note) :
    ∀ (P U : List Note), (∀ n ∈ P, n.pinned = true) → (∀ n ∈ U, n.pinned = false) →
      l.foldl (fun acc x => jsInsert pinCmp x acc) (P ++ U)
        = (P ++ l.filter (fun n => n.pinned))
            ++ (U ++ l.filter (fun n => !n.pinned)) := by
  induction l with
  | nil => intro P U _ _; simp
  | cons x xs ih =>
    intro P U hP hU
    rw [List.foldl_cons, jsInsert_partition x P U hP hU]
    cases hx : x.pinned
    · simp only [Bool.false_eq_true, if_false]
      have hU' : ∀ n ∈ U ++ [x], n.pinned = false := by
        intro n hn
        rcases List.mem_append.mp hn with hn | hn
        · exact hU n hn
        · simp at hn; subst hn; exact hx
      have := ih P (U ++ [x]) hP hU'
      rw [this]
      simp [List.filter_cons, hx, List.append_assoc]
    · simp only [if_true]
      have hP' : ∀ n ∈ P ++ [x], n.pinned = true := by
        intro n hn
        rcases List.mem_append.mp hn with hn | hn
        · exact hP n hn
        · simp at hn; subst hn; exact hx
      have := ih (P ++ [x]) U hP' hU
      rw [show P ++ x :: U = (P ++ [x]) ++ U by simp, this]
      simp [List.filter_cons, hx, List.append_assoc]

theorem jsStableSort_pinCmp (l : List Note) :
    jsStableSort pinCmp l
      = l.filter (fun n => n.pinned) ++ l.filter (fun n => !n.pinned) := by
  have h := foldl_jsInsert l [] [] (by simp) (by simp)
  simpa [jsStableSort] using h

/-- Claim C6: with the subscription delivering notes newest-first
(`orderBy('createdAt', 'desc')`), `displayNotes` is exactly the pinned
notes followed by the unpinned notes, and inside each group the
newest-first order is preserved (the comparator returns `0` on equal
pinned states and the sort is stable). -/
theorem display_notes_order (search : String) (notes : List Note)
    (h : NewestFirst notes) :
    displayNotes search notes
      = (searchFilter search notes).filter (fun n => n.pinned)
          ++ (searchFilter search notes).filter (fun n => !n.pinned) ∧
    NewestFirst ((searchFilter search notes).filter (fun n => n.pinned)) ∧
    NewestFirst ((searchFilter search notes).filter (fun n => !n.pinned)) := by
  refine ⟨jsStableSort_pinCmp _, ?_, ?_⟩ <;>
    exact List.Pairwise.filter _ (List.Pairwise.filter _ h)

/-- Witness for claim C6: two unpinned notes and one pinned older note. -/
theorem display_notes_order_witness :
    NewestFirst
      [{ id := "n3", content := "third", createdAt := 30, pinned := false },
       { id := "n2", content := "second", createdAt := 20, pinned := true },
       { id := "n1", content := "first", createdAt := 10, pinned := false }] ∧
    displayNotes ""
      [{ id := "n3", content := "third", createdAt := 30, pinned := false },
       { id := "n2", content := "second", createdAt := 20, pinned := true },
       { id := "n1", content := "first", createdAt := 10, pinned := false }]
      = [{ id := "n2", content := "second", createdAt := 20, pinned := true },
         { id := "n3", content := "third", createdAt := 30, pinned := false },
         { id := "n1", content := "first", createdAt := 10, pinned := false }] :=
  ⟨by unfold NewestFirst; decide,
   by
    have h := (display_notes_order ""
      [{ id := "n3", content := "third", createdAt := 30, pinned := false },
       { id := "n2", content := "second", createdAt := 20, pinned := true },
       { id := "n1", content := "first", createdAt := 10, pinned := false }]
      (by unfold NewestFirst; decide)).1
    rw [h]
    decide⟩

/-- Witness for the amended claim C7: a call that resolves in time shows
no fallback modal. -/
theorem initiate_call_race_semantics_witness :
    initiateCallAwaited "112" = AwaitShape.race ("tel:" ++ "112") 1500 ∧
    initiateCallShowsModal
        { platformWeb := false, openResolves := true, withinTimeout := true } = false :=
  ⟨(initiate_call_race_semantics "112"
      { platformWeb := false, openResolves := true, withinTimeout := true }).1,
   ((initiate_call_race_semantics "112"
      { platformWeb := false, openResolves := true, withinTimeout := true }).2.2 rfl).mpr
     ⟨rfl, rfl⟩⟩

theorem onPinChange_digits (text : String) :
    ∀ x ∈ (onPinChange text).toList, x.isDigit = true := by
  intro x hx
  have hx' : x ∈ (text.toList.filter Char.isDigit).take 6 := hx
  exact List.of_mem_filter (List.mem_of_mem_take hx')

theorem numberIsNaN_onPinChange (text : String) :
    numberIsNaN (onPinChange text) = false := by
  have h : (onPinChange text).toList.all Char.isDigit = true :=
    List.all_eq_true.mpr (by simpa using onPinChange_digits text)
  unfold numberIsNaN
  rw [h]
  rfl

/-- Safety: `handleRegister` never stores `000000` as the PIN: the only writer of
the `userPin` key rejects the reserved reset code, so a stored PIN is
never `000000`. -/
theorem handleRegister_never_writes_reset (storageOk : Bool) (u pin : String) :
    ("userPin", "000000") ∉ (handleRegister storageOk u pin).writes := by
  unfold handleRegister
  split_ifs with h1 h2 h3 h4
  · simp
  · simp
  · simp
  · intro hmem
    simp at hmem
    exact h3 hmem.symm
  · simp

/-- Claim C8: with the PIN state produced by `onPinChange`,
`handleRegister` writes to storage iff the trimmed username is non-empty,
the PIN has exactly 6 digits and is not `000000`; a successful write is
exactly the pairs `userPin` and `isRegistered`, never the username; any
validation failure alerts and writes nothing. -/
theorem handle_register_validation (storageOk : Bool) (username text : String) :
    ((handleRegister storageOk username (onPinChange text)).writes ≠ [] ↔
      (storageOk = true ∧ trimChars username ≠ "" ∧
        (onPinChange text).length = 6 ∧ onPinChange text ≠ "000000")) ∧
    ((handleRegister storageOk username (onPinChange text)).writes = [] ∨
      (handleRegister storageOk username (onPinChange text)).writes
        = [("userPin", onPinChange text), ("isRegistered", "true")]) ∧
    (¬(trimChars username ≠ "" ∧ (onPinChange text).length = 6 ∧
        onPinChange text ≠ "000000") →
      (handleRegister storageOk username (onPinChange text)).alert ≠ none ∧
      (handleRegister storageOk username (onPinChange text)).writes = []) := by
  have hnan := numberIsNaN_onPinChange text
  unfold handleRegister
  rw [hnan]
  by_cases h1 : trimChars username = "" <;>
    by_cases h2 : (onPinChange text).length = 6 <;>
      by_cases h3 : onPinChange text = "000000" <;>
        cases storageOk <;>
          simp_all

/-- Witness for claim C8: username `amy`, typed PIN text `135799`. -/
theorem handle_register_validation_witness :
    (handleRegister true "amy" (onPinChange "135799")).writes ≠ [] ∧
    (handleRegister true "amy" (onPinChange "135799")).writes
      = [("userPin", onPinChange "135799"), ("isRegistered", "true")] := by
  have h := handle_register_validation true "amy" "135799"
  refine ⟨h.1.mpr ⟨rfl, by decide, by decide, by decide⟩, ?_⟩
  rcases h.2.1 with hw | hw
  · exact absurd hw (h.1.mpr ⟨rfl, by decide, by decide, by decide⟩)
  · exact hw

/-- Claim C10: the displayed SOS list is always the five built-in
contacts in their fixed order followed by the custom contacts; adding
prepends to the customs, editing maps over the customs replacing the
matching id, deleting filters the customs; every mutation leaves the
built-in block unchanged and present. -/
theorem built_in_contacts_invariant (custom : List Contact)
    (cid eid newId formName formNumber : String) (editId : Option String) :
    (allContacts custom).take 5 = BUILT_IN ∧
    (allContacts custom).drop 5 = custom ∧
    (allContacts (onSubmitForm editId newId formName formNumber custom)).take 5
      = BUILT_IN ∧
    (allContacts (deleteContact cid custom)).take 5 = BUILT_IN ∧
    (trimChars formName ≠ "" → isValidPhone (sanitizeNumber formNumber) = true →
      onSubmitForm none newId formName formNumber custom
        = { id := newId, name := trimChars formName, number := sanitizeNumber formNumber }
            :: custom) ∧
    (trimChars formName ≠ "" → isValidPhone (sanitizeNumber formNumber) = true →
      onSubmitForm (some eid) newId formName formNumber custom
        = custom.map (fun c =>
            if c.id = eid then
              { c with name := trimChars formName, number := sanitizeNumber formNumber }
            else c)) ∧
    deleteContact cid custom = custom.filter (fun c => c.id ≠ cid) := by
  refine ⟨?_, ?_, ?_, ?_, ?_, ?_, rfl⟩
  · exact List.take_left BUILT_IN custom
  · exact List.drop_left BUILT_IN custom
  · exact List.take_left BUILT_IN _
  · exact List.take_left BUILT_IN _
  · intro hn hv
    simp [onSubmitForm, hn, hv]
  · intro hn hv
    simp [onSubmitForm, hn, hv]

/-- Witness for claim C10 on a one-element custom list. -/
theorem built_in_contacts_invariant_witness :
    (trimChars "Mum" ≠ "" ∧ isValidPhone (sanitizeNumber " 9876543210 ") = true) ∧
    onSubmitForm none "c-abc1234" "Mum" " 9876543210 "
        [{ id := "c-old", name := "Dad", number := "12345" }]
      = [{ id := "c-abc1234", name := "Mum", number := "9876543210" },
         { id := "c-old", name := "Dad", number := "12345" }] ∧
    (allContacts [{ id := "c-old", name := "Dad", number := "12345" }]).take 5
      = BUILT_IN := by
  have h := built_in_contacts_invariant
    [{ id := "c-old", name := "Dad", number := "12345" }]
    "x" "e" "c-abc1234" "Mum" " 9876543210 " none
  refine ⟨⟨by decide, by decide⟩, ?_, h.1⟩
  have h5 := h.2.2.2.2.1 (by decide) (by decide)
  rw [h5]
  decide

end ResQ
